import Mathlib

/-!
Verification of the clira terminal issue tracker (Rust), as a shallow
embedding in Lean 4.  The data model follows `src/models.rs`, the entity
store follows `src/db.rs` (with the in-memory `MockDatabase` semantics of
read/write: `read` returns the last written state, `write` replaces it),
the navigator follows `src/ui/navigator.rs`, and the persisted JSON format
follows the serde attributes in `src/models.rs` together with
`impl Database for JSONFileDatabase` in `src/db.rs`.
Rust `u32` identifiers are modelled as `Nat` (the id counter only ever
increases by one per creation), `HashMap<u32, T>` as an association list
`List (Nat × T)`, and `anyhow::Result` as `Except String`.
-/

namespace Clira

/-- `Status` from `src/models.rs`: the states an `Epic` or `Story` can be in.
`Open` is the default state. -/
inductive Status where
  | «open»
  | inProgress
  | resolved
  | closed
deriving DecidableEq, Repr

/-- `Story` from `src/models.rs`. -/
structure Story where
  name : String
  description : String
  status : Status
deriving DecidableEq, Repr

/-- `Epic` from `src/models.rs`: carries the ordered list of child story ids. -/
structure Epic where
  name : String
  description : String
  status : Status
  story_ids : List Nat
deriving DecidableEq, Repr

/-- `Epic::new` from `src/models.rs`: empty story list, `Open` status. -/
def Epic.new (name description : String) : Epic :=
  { name := name, description := description, status := Status.«open», story_ids := [] }

/-- `Story::new` from `src/models.rs`: `Open` status. -/
def Story.new (name description : String) : Story :=
  { name := name, description := description, status := Status.«open» }

/-- `DatabaseState` from `src/models.rs`: the whole persisted state. -/
structure DatabaseState where
  last_item_id : Option Nat
  epics : List (Nat × Epic)
  stories : List (Nat × Story)
deriving DecidableEq, Repr

/-- `HashMap::get`: first binding of the key in the association list. -/
def mapGet (m : List (Nat × α)) (k : Nat) : Option α :=
  (m.find? (fun p => p.fst == k)).map Prod.snd

/-- `HashMap::insert`: bind `k` to `v`, dropping any previous binding of `k`. -/
def mapInsert (m : List (Nat × α)) (k : Nat) (v : α) : List (Nat × α) :=
  (k, v) :: m.filter (fun p => !(p.fst == k))

/-- `HashMap::remove`: drop every binding of `k`. -/
def mapRemove (m : List (Nat × α)) (k : Nat) : List (Nat × α) :=
  m.filter (fun p => !(p.fst == k))

/-- The id allocation rule shared by `create_epic` and `create_story`
(`src/db.rs`): `last_item_id + 1`, or `0` when `last_item_id` is `None`. -/
def next_id (st : DatabaseState) : Nat :=
  match st.last_item_id with
  | some prev_id => prev_id + 1
  | none => 0

/-- `JiraDatabase::create_epic` (`src/db.rs`): always succeeds barring I/O;
stores the epic under the next id and advances `last_item_id`. -/
def create_epic (epic : Epic) (st : DatabaseState) : Nat × DatabaseState :=
  let id := next_id st
  (id, { st with last_item_id := some id, epics := mapInsert st.epics id epic })

/-- `JiraDatabase::create_story` (`src/db.rs`): fails before any write when
`epic_id` is unknown; otherwise appends the new id to the parent epic's
story list, inserts the story, and advances `last_item_id`. -/
def create_story (story : Story) (epic_id : Nat) (st : DatabaseState) :
    Except String (Nat × DatabaseState) :=
  let id := next_id st
  match mapGet st.epics epic_id with
  | none => Except.error ("no epic found for id " ++ toString epic_id)
  | some epic =>
      let epic := { epic with story_ids := epic.story_ids ++ [id] }
      Except.ok (id,
        { st with
          epics := mapInsert st.epics epic_id epic,
          last_item_id := some id,
          stories := mapInsert st.stories id story })

/-- `JiraDatabase::update_epic_name` (`src/db.rs`). -/
def update_epic_name (id : Nat) (name : String) (st : DatabaseState) :
    Except String DatabaseState :=
  match mapGet st.epics id with
  | some epic => Except.ok { st with epics := mapInsert st.epics id { epic with name := name } }
  | none => Except.error ("no epic found for id " ++ toString id)

/-- `JiraDatabase::update_epic_description` (`src/db.rs`). -/
def update_epic_description (id : Nat) (description : String) (st : DatabaseState) :
    Except String DatabaseState :=
  match mapGet st.epics id with
  | some epic =>
      Except.ok { st with epics := mapInsert st.epics id { epic with description := description } }
  | none => Except.error ("no epic found for id " ++ toString id)

/-- `JiraDatabase::update_epic_status` (`src/db.rs`). -/
def update_epic_status (id : Nat) (status : Status) (st : DatabaseState) :
    Except String DatabaseState :=
  match mapGet st.epics id with
  | some epic =>
      Except.ok { st with epics := mapInsert st.epics id { epic with status := status } }
  | none => Except.error ("no epic found for id " ++ toString id)

/-- `JiraDatabase::update_story_name` (`src/db.rs`). -/
def update_story_name (id : Nat) (name : String) (st : DatabaseState) :
    Except String DatabaseState :=
  match mapGet st.stories id with
  | some story =>
      Except.ok { st with stories := mapInsert st.stories id { story with name := name } }
  | none => Except.error ("no story found for id " ++ toString id)

/-- `JiraDatabase::update_story_description` (`src/db.rs`). -/
def update_story_description (id : Nat) (description : String) (st : DatabaseState) :
    Except String DatabaseState :=
  match mapGet st.stories id with
  | some story =>
      Except.ok
        { st with stories := mapInsert st.stories id { story with description := description } }
  | none => Except.error ("no story found for id " ++ toString id)

/-- `JiraDatabase::update_story_status` (`src/db.rs`). -/
def update_story_status (id : Nat) (status : Status) (st : DatabaseState) :
    Except String DatabaseState :=
  match mapGet st.stories id with
  | some story =>
      Except.ok { st with stories := mapInsert st.stories id { story with status := status } }
  | none => Except.error ("no story found for id " ++ toString id)

/-- `JiraDatabase::delete_epic` (`src/db.rs`): removes only the epic entry;
the story mapping and `last_item_id` are untouched. -/
def delete_epic (id : Nat) (st : DatabaseState) : Except String DatabaseState :=
  match mapGet st.epics id with
  | some _ => Except.ok { st with epics := mapRemove st.epics id }
  | none => Except.error ("no epic found for id " ++ toString id)

/-- `JiraDatabase::delete_story` (`src/db.rs`): requires `epic_id` to exist and
`story_id` to occur in that epic's `story_ids` (found by position, removed at
that position, i.e. the first occurrence is erased); then drops the story
entry. -/
def delete_story (story_id epic_id : Nat) (st : DatabaseState) :
    Except String DatabaseState :=
  match mapGet st.epics epic_id with
  | none => Except.error ("no epic found for id " ++ toString epic_id)
  | some epic =>
      if epic.story_ids.contains story_id then
        Except.ok
          { st with
            epics := mapInsert st.epics epic_id
              { epic with story_ids := epic.story_ids.erase story_id },
            stories := mapRemove st.stories story_id }
      else Except.error ("no story found for id " ++ toString story_id)

/-- The `Action` enum exactly as it is declared in `src/models.rs` (lines
9-23).  Note that it has no `UpdateStoryName` or `UpdateStoryDescription`
variant. -/
inductive Action where
  | navigateToEpicDetail (epic_id : Nat)
  | navigateToStoryDetail (story_id : Nat) (epic_id : Nat)
  | navigateToPreviousPage
  | createEpic
  | createStory (epic_id : Nat)
  | updateEpicName (epic_id : Nat)
  | updateEpicDescription (epic_id : Nat)
  | updateEpicStatus (epic_id : Nat)
  | updateStoryStatus (story_id : Nat)
  | deleteEpic (epic_id : Nat)
  | deleteStory (story_id : Nat) (epic_id : Nat)
  | exit
deriving DecidableEq, Repr

/-- The action vocabulary of the page-to-Navigator contract: the variants
matched by `Navigator::dispatch_action` (`src/ui/navigator.rs` lines 115-186)
and emitted by the pages (`src/ui/pages/mod.rs`, in particular `update_story`
at lines 307-316).  It extends the `Action` enum of `src/models.rs` with the
`UpdateStoryName` and `UpdateStoryDescription` variants that `models.rs`
omits. -/
inductive NavAction where
  | navigateToEpicDetail (epic_id : Nat)
  | navigateToStoryDetail (story_id : Nat) (epic_id : Nat)
  | navigateToPreviousPage
  | createEpic
  | createStory (epic_id : Nat)
  | updateEpicName (epic_id : Nat)
  | updateEpicDescription (epic_id : Nat)
  | updateEpicStatus (epic_id : Nat)
  | updateStoryName (story_id : Nat)
  | updateStoryDescription (story_id : Nat)
  | updateStoryStatus (story_id : Nat)
  | deleteEpic (epic_id : Nat)
  | deleteStory (story_id : Nat) (epic_id : Nat)
  | exit
deriving DecidableEq, Repr

/-- The evident inclusion of the declared `Action` enum (`src/models.rs`) into
the action vocabulary the Navigator dispatches on: each declared variant is
sent to the variant of the same name. -/
def Action.toNavigator : Action → NavAction
  | .navigateToEpicDetail epic_id => .navigateToEpicDetail epic_id
  | .navigateToStoryDetail story_id epic_id => .navigateToStoryDetail story_id epic_id
  | .navigateToPreviousPage => .navigateToPreviousPage
  | .createEpic => .createEpic
  | .createStory epic_id => .createStory epic_id
  | .updateEpicName epic_id => .updateEpicName epic_id
  | .updateEpicDescription epic_id => .updateEpicDescription epic_id
  | .updateEpicStatus epic_id => .updateEpicStatus epic_id
  | .updateStoryStatus story_id => .updateStoryStatus story_id
  | .deleteEpic epic_id => .deleteEpic epic_id
  | .deleteStory story_id epic_id => .deleteStory story_id epic_id
  | .exit => .exit

/-- A page-stack frame.  The pages (`HomePage`, `EpicDetail`, `StoryDetail`
from `src/ui/pages/mod.rs`) are trait objects holding a shared database
handle; only their kind and id payloads matter for navigation, so frames are
the closed tagged variant. -/
inductive Page where
  | homePage
  | epicDetail (epic_id : Nat)
  | storyDetail (story_id : Nat) (epic_id : Nat)
deriving DecidableEq, Repr

/-- The prompt collaborator as it is *declared* in `src/ui/pages/prompts.rs`
(lines 9-19): each member is a closure; the create members return
`Option<Epic>` / `Option<Story>` where `None` means the user cancelled.
The `Task`-related members are omitted: the `Task` model they mention does
not exist in `src/models.rs`, and the Navigator never uses them.
Closures are modelled by their returned values (a scripted prompt). -/
structure Prompt where
  create_epic : Option Epic
  create_story : Option Story
  delete_epic : Bool
  delete_story : Bool
  update_name : String
  update_description : String
  update_status : Option Status

/-- The prompt collaborator as `Navigator::dispatch_action`
(`src/ui/navigator.rs` lines 135-142) actually *consumes* it: the values
returned by `create_epic` / `create_story` are passed directly to the
database create operations, with no `Option` unwrapping, so those members
must produce an `Epic` / `Story` outright for the dispatch code to
type-check.  This diverges from the declared `Prompt` contract above. -/
structure NavPrompt where
  create_epic : Epic
  create_story : Story
  delete_epic : Bool
  delete_story : Bool
  update_name : String
  update_description : String
  update_status : Option Status

/-- `Feature` from `src/ui/navigator.rs`. -/
inductive Feature where
  | epic (id : Nat)
  | story (id : Nat)

/-- The scan in the `Feature::Story` arm of
`Navigator::auto_update_epic_status`: find an epic whose `story_ids`
contains the given story id.  (`HashMap` iteration order is arbitrary in
Rust; the list order stands in for it.) -/
def find_epic_containing (epics : List (Nat × Epic)) (story_id : Nat) :
    Option (Nat × Epic) :=
  epics.find? (fun p => p.snd.story_ids.contains story_id)

/-- `Navigator::auto_update_epic_status` (`src/ui/navigator.rs` lines
65-107): locate the owning epic (directly by id, or by scanning for the epic
containing the story id), resolve its child stories (ids with no story entry
are skipped), and write the derived status back through
`update_epic_status`.  The `matches!` tests are equality tests on `Status`. -/
def auto_update_epic_status (feat : Feature) (st : DatabaseState) :
    Except String DatabaseState :=
  let found : Option (Nat × Epic) :=
    match feat with
    | .epic epic_id => (mapGet st.epics epic_id).map (fun epic => (epic_id, epic))
    | .story story_id => find_epic_containing st.epics story_id
  match found with
  | none => Except.error "epic not found"
  | some (epic_id, epic) =>
      let stories := epic.story_ids.filterMap (fun id => mapGet st.stories id)
      if stories.isEmpty then
        update_epic_status epic_id Status.«open» st
      else
        let status :=
          if stories.all (fun story => story.status == Status.closed) then
            Status.closed
          else if stories.all (fun story =>
              story.status == Status.resolved || story.status == Status.closed) then
            Status.resolved
          else if stories.all (fun story => story.status == Status.«open») then
            Status.«open»
          else
            Status.inProgress
        update_epic_status epic_id status st

/-- `Navigator` (`src/ui/navigator.rs`): the page stack (`Vec` with the top
at the end) together with the shared database handle's current state. -/
structure Navigator where
  pages : List Page
  db : DatabaseState
deriving DecidableEq, Repr

/-- `Navigator::new`: a one-frame stack containing `HomePage`. -/
def Navigator.new (db : DatabaseState) : Navigator :=
  { pages := [Page.homePage], db := db }

/-- `NavigationManager::current_page`: the last (top) frame, if any. -/
def Navigator.current_page (nav : Navigator) : Option Page :=
  nav.pages.getLast?

/-- `Navigator::dispatch_action` (`src/ui/navigator.rs` lines 115-186).
The database is a shared handle that every store operation writes through
immediately, so a `?` early return after a successful write keeps that
write: the result is the navigator state as mutated so far, paired with the
propagated outcome. -/
def dispatch_action (prompts : NavPrompt) (action : NavAction) (nav : Navigator) :
    Navigator × Except String Unit :=
  match action with
  | .navigateToEpicDetail epic_id =>
      ({ nav with pages := nav.pages ++ [Page.epicDetail epic_id] }, Except.ok ())
  | .navigateToStoryDetail story_id epic_id =>
      ({ nav with pages := nav.pages ++ [Page.storyDetail story_id epic_id] }, Except.ok ())
  | .navigateToPreviousPage =>
      ({ nav with pages := nav.pages.dropLast }, Except.ok ())
  | .createEpic =>
      let epic := prompts.create_epic
      ({ nav with db := (create_epic epic nav.db).snd }, Except.ok ())
  | .createStory epic_id =>
      let story := prompts.create_story
      match create_story story epic_id nav.db with
      | .ok (_, db') => ({ nav with db := db' }, Except.ok ())
      | .error e => (nav, Except.error e)
  | .updateEpicName epic_id =>
      match update_epic_name epic_id prompts.update_name nav.db with
      | .ok db' => ({ nav with db := db' }, Except.ok ())
      | .error e => (nav, Except.error e)
  | .updateEpicDescription epic_id =>
      match update_epic_description epic_id prompts.update_description nav.db with
      | .ok db' => ({ nav with db := db' }, Except.ok ())
      | .error e => (nav, Except.error e)
  | .updateEpicStatus epic_id =>
      match prompts.update_status with
      | none => (nav, Except.ok ())
      | some status =>
          match update_epic_status epic_id status nav.db with
          | .ok db' => ({ nav with db := db' }, Except.ok ())
          | .error e => (nav, Except.error e)
  | .updateStoryName story_id =>
      match update_story_name story_id prompts.update_name nav.db with
      | .ok db' => ({ nav with db := db' }, Except.ok ())
      | .error e => (nav, Except.error e)
  | .updateStoryDescription story_id =>
      match update_story_description story_id prompts.update_description nav.db with
      | .ok db' => ({ nav with db := db' }, Except.ok ())
      | .error e => (nav, Except.error e)
  | .updateStoryStatus story_id =>
      match prompts.update_status with
      | none => (nav, Except.ok ())
      | some status =>
          match update_story_status story_id status nav.db with
          | .error e => (nav, Except.error e)
          | .ok db' =>
              match auto_update_epic_status (Feature.story story_id) db' with
              | .error e => ({ nav with db := db' }, Except.error e)
              | .ok db'' => ({ nav with db := db'' }, Except.ok ())
  | .deleteEpic epic_id =>
      if prompts.delete_epic then
        match delete_epic epic_id nav.db with
        | .error e => (nav, Except.error e)
        | .ok db' =>
            ({ nav with db := db', pages := nav.pages.dropLast }, Except.ok ())
      else (nav, Except.ok ())
  | .deleteStory story_id epic_id =>
      if prompts.delete_story then
        match delete_story story_id epic_id nav.db with
        | .error e => (nav, Except.error e)
        | .ok db' =>
            match auto_update_epic_status (Feature.epic epic_id) db' with
            | .error e => ({ nav with db := db' }, Except.error e)
            | .ok db'' =>
                ({ nav with db := db'', pages := nav.pages.dropLast }, Except.ok ())
      else (nav, Except.ok ())
  | .exit => ({ nav with pages := [] }, Except.ok ())

/-- A store mutation, for stating sequences of operations against the
entity store (`src/db.rs`). -/
inductive Op where
  | createEpic (epic : Epic)
  | createStory (story : Story) (epic_id : Nat)
  | deleteEpic (id : Nat)
  | deleteStory (story_id : Nat) (epic_id : Nat)

/-- Run one store operation; a failed operation performs no write, so the
state is returned unchanged.  The second component is the id returned by a
successful create. -/
def runOp (st : DatabaseState) : Op → DatabaseState × Option Nat
  | .createEpic epic =>
      let (id, st') := create_epic epic st
      (st', some id)
  | .createStory story epic_id =>
      match create_story story epic_id st with
      | .ok (id, st') => (st', some id)
      | .error _ => (st, none)
  | .deleteEpic id =>
      match delete_epic id st with
      | .ok st' => (st', none)
      | .error _ => (st, none)
  | .deleteStory story_id epic_id =>
      match delete_story story_id epic_id st with
      | .ok st' => (st', none)
      | .error _ => (st, none)

/-- Run a sequence of store operations, collecting the ids returned by the
successful creates in order. -/
def runOps (st : DatabaseState) : List Op → DatabaseState × List Nat
  | [] => (st, [])
  | op :: ops =>
      let (st', idOpt) := runOp st op
      let (st'', ids) := runOps st' ops
      (st'', idOpt.toList ++ ids)

/-- The status rollup precedence stated by the specification (§4.4),
evaluated top to bottom, first match wins: empty story set is Open; all
Closed is Closed; all Resolved or Closed is Resolved; all Open is Open;
anything else is InProgress.  Stated over the resolved child stories. -/
def rollupSpec (stories : List Story) : Status :=
  if stories = [] then Status.«open»
  else if stories.all (fun story => story.status == Status.closed) then Status.closed
  else if stories.all (fun story =>
      story.status == Status.resolved || story.status == Status.closed) then Status.resolved
  else if stories.all (fun story => story.status == Status.«open») then Status.«open»
  else Status.inProgress

/-- The character for a decimal digit, by code point (`'0'` is 48). -/
def digitChar10 (d : Nat) : Char :=
  Char.ofNat (48 + d)

/-- The numeric value of a decimal digit character, by code point. -/
def digitVal10 (c : Char) : Option Nat :=
  if 48 ≤ c.toNat ∧ c.toNat ≤ 57 then some (c.toNat - 48) else none

/-- Standard most-significant-first decimal rendering of a natural number. -/
def natToDecimal (n : Nat) : List Char :=
  if _h : n < 10 then [digitChar10 n]
  else natToDecimal (n / 10) ++ [digitChar10 (n % 10)]
decreasing_by exact Nat.div_lt_self (by omega) (by omega)

/-- Left fold of decimal digits onto an accumulator; `none` on a
non-digit. -/
def parseDigits : List Char → Nat → Option Nat
  | [], acc => some acc
  | c :: cs, acc =>
      match digitVal10 c with
      | some d => parseDigits cs (acc * 10 + d)
      | none => none

/-- Parse a non-empty all-digit character list as a natural number. -/
def decodeDecimal (cs : List Char) : Option Nat :=
  if cs.isEmpty then none else parseDigits cs 0

/-- A `u32` map key as serde serializes it: its decimal string. -/
def encodeId (n : Nat) : String :=
  String.mk (natToDecimal n)

/-- Parse a serialized map key back to a number. -/
def decodeId (s : String) : Option Nat :=
  decodeDecimal s.data

/-- The JSON values the persisted file is built from. -/
inductive Json where
  | null
  | str (s : String)
  | num (n : Nat)
  | arr (items : List Json)
  | obj (fields : List (String × Json))

/-- Field lookup in a JSON object. -/
def jLookup (fields : List (String × Json)) (key : String) : Option Json :=
  (fields.find? (fun p => p.fst == key)).map Prod.snd

/-- `Status` serialization (`src/models.rs` serde renames): the lowercase
tokens. -/
def Status.toJsonTok : Status → String
  | .«open» => "open"
  | .inProgress => "inProgress"
  | .resolved => "resolved"
  | .closed => "closed"

/-- `Status` deserialization. -/
def Status.fromJsonTok? (s : String) : Option Status :=
  if s = "open" then some Status.«open»
  else if s = "inProgress" then some Status.inProgress
  else if s = "resolved" then some Status.resolved
  else if s = "closed" then some Status.closed
  else none

/-- `Story` serialization (derived `Serialize` in `src/models.rs`). -/
def Story.toJson (s : Story) : Json :=
  Json.obj
    [("name", Json.str s.name),
     ("description", Json.str s.description),
     ("status", Json.str s.status.toJsonTok)]

/-- `Story` deserialization. -/
def Story.fromJson? : Json → Option Story
  | .obj fields =>
      match jLookup fields "name", jLookup fields "description", jLookup fields "status" with
      | some (.str name), some (.str description), some (.str tok) =>
          (Status.fromJsonTok? tok).map
            (fun status => { name := name, description := description, status := status })
      | _, _, _ => none
  | _ => none

/-- Serialize a list of story ids. -/
def encodeIds (ids : List Nat) : Json :=
  Json.arr (ids.map Json.num)

/-- Deserialize a list of story ids. -/
def decodeIds : Json → Option (List Nat)
  | .arr items => decodeIdsList items
  | _ => none
where
  decodeIdsList : List Json → Option (List Nat)
  | [] => some []
  | .num n :: rest => (decodeIdsList rest).map (fun ids => n :: ids)
  | _ :: _ => none

/-- `Epic` serialization (derived `Serialize` in `src/models.rs`, with the
`storyIds` rename). -/
def Epic.toJson (e : Epic) : Json :=
  Json.obj
    [("name", Json.str e.name),
     ("description", Json.str e.description),
     ("status", Json.str e.status.toJsonTok),
     ("storyIds", encodeIds e.story_ids)]

/-- `Epic` deserialization. -/
def Epic.fromJson? : Json → Option Epic
  | .obj fields =>
      match jLookup fields "name", jLookup fields "description",
          jLookup fields "status", jLookup fields "storyIds" with
      | some (.str name), some (.str description), some (.str tok), some idsJson =>
          match Status.fromJsonTok? tok, decodeIds idsJson with
          | some status, some story_ids =>
              some { name := name, description := description,
                     status := status, story_ids := story_ids }
          | _, _ => none
      | _, _, _, _ => none
  | _ => none

/-- Serialize the epic map: keys become decimal strings. -/
def encodeEpics (m : List (Nat × Epic)) : List (String × Json) :=
  m.map (fun p => (encodeId p.fst, Epic.toJson p.snd))

/-- Deserialize the epic map. -/
def decodeEpics : List (String × Json) → Option (List (Nat × Epic))
  | [] => some []
  | (k, v) :: rest =>
      match decodeId k, Epic.fromJson? v, decodeEpics rest with
      | some id, some epic, some rest' => some ((id, epic) :: rest')
      | _, _, _ => none

/-- Serialize the story map: keys become decimal strings. -/
def encodeStories (m : List (Nat × Story)) : List (String × Json) :=
  m.map (fun p => (encodeId p.fst, Story.toJson p.snd))

/-- Deserialize the story map. -/
def decodeStories : List (String × Json) → Option (List (Nat × Story))
  | [] => some []
  | (k, v) :: rest =>
      match decodeId k, Story.fromJson? v, decodeStories rest with
      | some id, some story, some rest' => some ((id, story) :: rest')
      | _, _, _ => none

/-- `DatabaseState` serialization: one object with exactly the three
top-level fields `lastItemId` (number or null), `epics`, `stories`
(objects keyed by stringified id), per the serde derives in
`src/models.rs`. -/
def DatabaseState.toJson (st : DatabaseState) : Json :=
  Json.obj
    [("lastItemId", match st.last_item_id with | none => Json.null | some n => Json.num n),
     ("epics", Json.obj (encodeEpics st.epics)),
     ("stories", Json.obj (encodeStories st.stories))]

/-- `DatabaseState` deserialization. -/
def DatabaseState.fromJson? : Json → Option DatabaseState
  | .obj fields =>
      match jLookup fields "lastItemId", jLookup fields "epics", jLookup fields "stories" with
      | some lastJson, some (.obj epicFields), some (.obj storyFields) =>
          match (match lastJson with
                 | .null => some none
                 | .num n => some (some n)
                 | _ => none),
              decodeEpics epicFields, decodeStories storyFields with
          | some last_item_id, some epics, some stories =>
              some { last_item_id := last_item_id, epics := epics, stories := stories }
          | _, _, _ => none
      | _, _, _ => none
  | _ => none

/-- `MockDatabase` (`src/db.rs` `test_utils`): the interior-mutability cell
holding the last written state. -/
structure MockDatabase where
  last_written_state : DatabaseState

/-- `MockDatabase::read`: a clone of the last written state (always `Ok`). -/
def MockDatabase.read (m : MockDatabase) : DatabaseState :=
  m.last_written_state

/-- `MockDatabase::write`: replace the cell with the given state. -/
def MockDatabase.write (_ : MockDatabase) (st : DatabaseState) : MockDatabase :=
  { last_written_state := st }

/-- `JSONFileDatabase` (`src/db.rs`): the backing file, modelled by its
JSON contents (`none` when the file is missing or unreadable). -/
structure JSONFileDatabase where
  contents : Option Json

/-- `JSONFileDatabase::write`: serialize the whole state and replace the
file contents with it. -/
def JSONFileDatabase.write (_ : JSONFileDatabase) (st : DatabaseState) : JSONFileDatabase :=
  { contents := some st.toJson }

/-- `JSONFileDatabase::read`: an IO error when the file is unavailable, a
parse error when its contents do not decode as a `DatabaseState`. -/
def JSONFileDatabase.read (f : JSONFileDatabase) : Except String DatabaseState :=
  match f.contents with
  | none => Except.error "io error"
  | some j =>
      match DatabaseState.fromJson? j with
      | some st => Except.ok st
      | none => Except.error "parse error"

/-- A scripted prompt used by concrete scenarios. -/
def pFix : NavPrompt :=
  { create_epic := Epic.new "e" "d", create_story := Story.new "s" "d",
    delete_epic := true, delete_story := true,
    update_name := "n", update_description := "d", update_status := some Status.closed }

/-- Concrete state for the rollup scenario: epic 0 owns stories 1 (Closed)
and 2 (Resolved). -/
def stC1 : DatabaseState :=
  { last_item_id := some 2,
    epics := [(0, { name := "e", description := "d", status := Status.«open»,
                    story_ids := [1, 2] })],
    stories := [(1, { name := "s1", description := "d", status := Status.closed }),
                (2, { name := "s2", description := "d", status := Status.resolved })] }

/-- The epic stored under id 0 in `stC1`. -/
def epicC1 : Epic :=
  { name := "e", description := "d", status := Status.«open», story_ids := [1, 2] }

/-- Concrete state for the id-allocation scenario: one epic, id 0, counter
at 0. -/
def stC2 : DatabaseState :=
  { last_item_id := some 0, epics := [(0, Epic.new "e" "d")], stories := [] }

/-- The state produced by creating a story under epic 0 of `stC2`. -/
def stC2' : DatabaseState :=
  { last_item_id := some 1,
    epics := [(0, { name := "e", description := "d", status := Status.«open»,
                    story_ids := [1] })],
    stories := [(1, Story.new "s" "d")] }

/-- Concrete state for the delete-story scenario: story 1 lives under epic 0;
epic 2 exists but owns no stories. -/
def stC4 : DatabaseState :=
  { last_item_id := some 2,
    epics := [(0, { name := "e0", description := "d", status := Status.«open»,
                    story_ids := [1] }),
              (2, Epic.new "e2" "d")],
    stories := [(1, Story.new "s" "d")] }

/-- The epic stored under id 2 in `stC4`. -/
def epicC4 : Epic := Epic.new "e2" "d"

/-- Concrete state for the delete-epic scenario: epics 3 and 4, story 1. -/
def stC5 : DatabaseState :=
  { last_item_id := some 4,
    epics := [(3, Epic.new "e3" "d"), (4, Epic.new "e4" "d")],
    stories := [(1, Story.new "s" "d")] }

/-- `stC5` after epic 3 is deleted. -/
def stC5' : DatabaseState :=
  { last_item_id := some 4,
    epics := [(4, Epic.new "e4" "d")],
    stories := [(1, Story.new "s" "d")] }

/-- Concrete state for the non-atomicity scenario: story 5 exists but no
epic's story list contains it. -/
def stC10 : DatabaseState :=
  { last_item_id := some 5, epics := [],
    stories := [(5, Story.new "s" "d")] }

theorem mapGet_insert_self (m : List (Nat × α)) (k : Nat) (v : α) :
    mapGet (mapInsert m k v) k = some v := by
  simp [mapGet, mapInsert, List.find?]

theorem find?_filter_out (m : List (Nat × α)) {k k' : Nat} (h : k' ≠ k) :
    List.find? (fun p => p.fst == k') (m.filter (fun p => !(p.fst == k))) =
      List.find? (fun p => p.fst == k') m := by
  induction m with
  | nil => rfl
  | cons p m ih =>
      by_cases hpk : p.fst = k
      · have h1 : (p.fst == k) = true := by simp [hpk]
        have h2 : (p.fst == k') = false := by simp [hpk, Ne.symm h]
        simp [List.filter_cons, h1, List.find?_cons, h2, ih]
      · have h1 : (p.fst == k) = false := by simp [hpk]
        by_cases hpk' : p.fst = k'
        · have h2 : (p.fst == k') = true := by simp [hpk']
          simp [List.filter_cons, h1, List.find?_cons, h2]
        · have h2 : (p.fst == k') = false := by simp [hpk']
          simp [List.filter_cons, h1, List.find?_cons, h2, ih]

theorem mapGet_insert_ne (m : List (Nat × α)) {k k' : Nat} (v : α) (h : k' ≠ k) :
    mapGet (mapInsert m k v) k' = mapGet m k' := by
  have h2 : (k == k') = false := by simp [Ne.symm h]
  simp [mapGet, mapInsert, List.find?_cons, h2, find?_filter_out _ h]

theorem mapGet_remove_self (m : List (Nat × α)) (k : Nat) :
    mapGet (mapRemove m k) k = none := by
  induction m with
  | nil => rfl
  | cons p m ih =>
      by_cases hpk : p.fst = k
      · have h1 : (p.fst == k) = true := by simp [hpk]
        simpa [mapRemove, List.filter_cons, h1] using ih
      · have h1 : (p.fst == k) = false := by simp [hpk]
        simp [mapRemove, mapGet, List.filter_cons, h1, List.find?_cons, ih]

theorem mapGet_remove_ne (m : List (Nat × α)) {k k' : Nat} (h : k' ≠ k) :
    mapGet (mapRemove m k) k' = mapGet m k' := by
  simp [mapGet, mapRemove, find?_filter_out _ h]

theorem digitVal10_digitChar10 {d : Nat} (h : d < 10) :
    digitVal10 (digitChar10 d) = some d := by
  interval_cases d <;> rfl

theorem parseDigits_append (xs ys : List Char) (acc : Nat) :
    parseDigits (xs ++ ys) acc =
      match parseDigits xs acc with
      | some a => parseDigits ys a
      | none => none := by
  induction xs generalizing acc with
  | nil => rfl
  | cons c cs ih =>
      simp only [List.cons_append, parseDigits]
      cases digitVal10 c with
      | none => rfl
      | some d => exact ih _

theorem natToDecimal_ne_nil (n : Nat) : natToDecimal n ≠ [] := by
  rw [natToDecimal]
  split <;> simp

theorem parseDigits_natToDecimal (n : Nat) : ∀ acc : Nat,
    parseDigits (natToDecimal n) acc = some (acc * 10 ^ (natToDecimal n).length + n) := by
  induction n using Nat.strong_induction_on with
  | _ n ih =>
    intro acc
    rw [natToDecimal]
    split
    · next h =>
        simp [parseDigits, digitVal10_digitChar10 h]
    · next h =>
        have hlt : n / 10 < n := Nat.div_lt_self (by omega) (by omega)
        have hmod : n % 10 < 10 := Nat.mod_lt n (by omega)
        rw [parseDigits_append, ih (n / 10) hlt acc]
        simp only [parseDigits, digitVal10_digitChar10 hmod, List.length_append,
          List.length_singleton, pow_succ]
        congr 1
        have hdm := Nat.div_add_mod n 10
        generalize (natToDecimal (n / 10)).length = L
        generalize hA : acc * 10 ^ L = A
        rw [← Nat.mul_assoc, hA]
        omega

theorem decodeDecimal_natToDecimal (n : Nat) :
    decodeDecimal (natToDecimal n) = some n := by
  have hne := natToDecimal_ne_nil n
  have hisE : (natToDecimal n).isEmpty = false := by
    cases hnd : natToDecimal n with
    | nil => exact absurd hnd hne
    | cons c cs => rfl
  rw [decodeDecimal, hisE]
  simpa using parseDigits_natToDecimal n 0

theorem decodeId_encodeId (n : Nat) : decodeId (encodeId n) = some n := by
  have : (String.mk (natToDecimal n)).data = natToDecimal n := rfl
  rw [decodeId, encodeId, this, decodeDecimal_natToDecimal]

theorem Status.fromJsonTok?_toJsonTok (s : Status) :
    Status.fromJsonTok? s.toJsonTok = some s := by
  cases s <;> rfl

theorem story_fromJson_toJson (s : Story) : Story.fromJson? s.toJson = some s := by
  cases s with
  | mk name description status =>
      simp [Story.toJson, Story.fromJson?, jLookup, List.find?,
        Status.fromJsonTok?_toJsonTok]

theorem decodeIds_encodeIds (ids : List Nat) : decodeIds (encodeIds ids) = some ids := by
  have : ∀ l : List Nat, decodeIds.decodeIdsList (l.map Json.num) = some l := by
    intro l
    induction l with
    | nil => rfl
    | cons n rest ih => simp [decodeIds.decodeIdsList, ih]
  simp [encodeIds, decodeIds, this]

theorem epic_fromJson_toJson (e : Epic) : Epic.fromJson? e.toJson = some e := by
  cases e with
  | mk name description status story_ids =>
      simp [Epic.toJson, Epic.fromJson?, jLookup, List.find?,
        Status.fromJsonTok?_toJsonTok, decodeIds_encodeIds]

theorem decodeEpics_encodeEpics (m : List (Nat × Epic)) :
    decodeEpics (encodeEpics m) = some m := by
  induction m with
  | nil => rfl
  | cons p m ih =>
      obtain ⟨k, v⟩ := p
      have hcons : encodeEpics ((k, v) :: m) = (encodeId k, Epic.toJson v) :: encodeEpics m := rfl
      rw [hcons]
      simp [decodeEpics, decodeId_encodeId, epic_fromJson_toJson, ih]

theorem decodeStories_encodeStories (m : List (Nat × Story)) :
    decodeStories (encodeStories m) = some m := by
  induction m with
  | nil => rfl
  | cons p m ih =>
      obtain ⟨k, v⟩ := p
      have hcons :
          encodeStories ((k, v) :: m) = (encodeId k, Story.toJson v) :: encodeStories m := rfl
      rw [hcons]
      simp [decodeStories, decodeId_encodeId, story_fromJson_toJson, ih]

theorem state_fromJson_toJson (st : DatabaseState) :
    DatabaseState.fromJson? st.toJson = some st := by
  cases st with
  | mk last_item_id epics stories =>
      cases last_item_id <;>
        simp [DatabaseState.toJson, DatabaseState.fromJson?, jLookup, List.find?,
          decodeEpics_encodeEpics, decodeStories_encodeStories]

/-- C9: writing any valid state through the storage engine and reading it
back yields that same state, for both the JSON-file backend and the
in-memory mock; the write fully replaces whatever the backing store held
before (the result does not depend on the prior contents `f` / `m`). -/
theorem C9_storage_roundtrip (f : JSONFileDatabase) (m : MockDatabase) (s : DatabaseState) :
    (JSONFileDatabase.write f s).read = Except.ok s
    ∧ (MockDatabase.write m s).read = s := by
  refine ⟨?_, rfl⟩
  simp [JSONFileDatabase.write, JSONFileDatabase.read, state_fromJson_toJson]

/-- C6: the Navigator starts with a one-frame stack containing Home;
dispatching NavigateToEpicDetail pushes an EpicDetail frame (depth 2 with
EpicDetail on top); dispatching NavigateToPreviousPage then pops back to
depth 1 with Home on top; and dispatching Exit from any stack leaves the
stack empty. -/
theorem C6_navigator_stack (p : NavPrompt) (db : DatabaseState) (eid : Nat) (nav : Navigator) :
    (Navigator.new db).pages = [Page.homePage]
    ∧ dispatch_action p (NavAction.navigateToEpicDetail eid) (Navigator.new db)
        = ({ pages := [Page.homePage, Page.epicDetail eid], db := db }, Except.ok ())
    ∧ Navigator.current_page { pages := [Page.homePage, Page.epicDetail eid], db := db }
        = some (Page.epicDetail eid)
    ∧ dispatch_action p NavAction.navigateToPreviousPage
          { pages := [Page.homePage, Page.epicDetail eid], db := db }
        = ({ pages := [Page.homePage], db := db }, Except.ok ())
    ∧ Navigator.current_page { pages := [Page.homePage], db := db } = some Page.homePage
    ∧ (dispatch_action p NavAction.exit nav).fst.pages = [] :=
  ⟨rfl, rfl, rfl, rfl, rfl, rfl⟩

/-- C7: `dispatch_action` invokes the store create operation unconditionally
with whatever the prompt collaborator produced — for every prompt value,
CreateEpic inserts that value and reports success, and CreateStory hands the
value straight to `create_story` — so the dispatch code contains no
user-cancelled (`None`) branch in which the store would stay unchanged,
although the `Prompt` contract declares the create members as optional. -/
theorem C7_create_ignores_cancellation (p : NavPrompt) (nav : Navigator) (eid : Nat) :
    dispatch_action p NavAction.createEpic nav
      = ({ nav with db := (create_epic p.create_epic nav.db).snd }, Except.ok ())
    ∧ mapGet (dispatch_action p NavAction.createEpic nav).fst.db.epics (next_id nav.db)
        = some p.create_epic
    ∧ dispatch_action p (NavAction.createStory eid) nav
        = (match create_story p.create_story eid nav.db with
           | .ok (_, db') => ({ nav with db := db' }, Except.ok ())
           | .error e => (nav, Except.error e)) := by
  refine ⟨rfl, ?_, rfl⟩
  show mapGet (mapInsert nav.db.epics (next_id nav.db) p.create_epic) (next_id nav.db)
      = some p.create_epic
  exact mapGet_insert_self _ _ _

/-- C8: no variant of the `Action` enum declared in models.rs maps to the
UpdateStoryName / UpdateStoryDescription arms of the page-to-Navigator
contract — the declared enum does not preserve the contract's variant set —
even though dispatching those arms does obtain the replacement string from
the prompt collaborator and performs the corresponding story update. -/
theorem C8_action_variant_set (p : NavPrompt) (nav : Navigator) (sid : Nat) :
    (∀ a : Action, Action.toNavigator a ≠ NavAction.updateStoryName sid
        ∧ Action.toNavigator a ≠ NavAction.updateStoryDescription sid)
    ∧ (∀ story : Story,
        mapGet ((dispatch_action p (NavAction.updateStoryName sid)
            { nav with db := { nav.db with
                stories := mapInsert nav.db.stories sid story } }).fst.db.stories) sid
          = some { story with name := p.update_name })
    ∧ (∀ story : Story,
        mapGet ((dispatch_action p (NavAction.updateStoryDescription sid)
            { nav with db := { nav.db with
                stories := mapInsert nav.db.stories sid story } }).fst.db.stories) sid
          = some { story with description := p.update_description }) := by
  refine ⟨?_, ?_, ?_⟩
  · intro a
    cases a <;> simp [Action.toNavigator]
  · intro story
    simp [dispatch_action, update_story_name, mapGet_insert_self]
  · intro story
    simp [dispatch_action, update_story_description, mapGet_insert_self]

/-- C3: creating a story under an unknown epic id fails with NotFound, and
the failed call performs no write: the persisted state is returned
unchanged, so no story is inserted, no epic's story list changes, and no id
is consumed. -/
theorem C3_create_story_notfound (story : Story) (epic_id : Nat) (st : DatabaseState)
    (h : mapGet st.epics epic_id = none) :
    create_story story epic_id st
      = Except.error ("no epic found for id " ++ toString epic_id)
    ∧ runOp st (Op.createStory story epic_id) = (st, none) := by
  have herr : create_story story epic_id st
      = Except.error ("no epic found for id " ++ toString epic_id) := by
    simp [create_story, h]
  exact ⟨herr, by simp [runOp, herr]⟩

/-- Witness for C3 at the empty store and epic id 7. -/
theorem C3_witness :
    mapGet (DatabaseState.mk none [] []).epics 7 = none
    ∧ create_story (Story.new "s" "d") 7 (DatabaseState.mk none [] [])
        = Except.error ("no epic found for id " ++ toString 7)
    ∧ runOp (DatabaseState.mk none [] []) (Op.createStory (Story.new "s" "d") 7)
        = (DatabaseState.mk none [] [], none) :=
  ⟨rfl, (C3_create_story_notfound (Story.new "s" "d") 7 (DatabaseState.mk none [] []) rfl).1,
    (C3_create_story_notfound (Story.new "s" "d") 7 (DatabaseState.mk none [] []) rfl).2⟩

/-- C4: deleting a story fails with NotFound when the epic id is unknown, or
when the story id is not in that epic's story list — even if the story
exists under a different epic — and a failed delete performs no write; on
success the story id is erased from the epic's list and the story entry is
removed from the story mapping. -/
theorem C4_delete_story_spec (sid eid : Nat) (st : DatabaseState) :
    (mapGet st.epics eid = none →
        delete_story sid eid st = Except.error ("no epic found for id " ++ toString eid)
        ∧ runOp st (Op.deleteStory sid eid) = (st, none))
    ∧ (∀ epic : Epic, mapGet st.epics eid = some epic → sid ∉ epic.story_ids →
        delete_story sid eid st = Except.error ("no story found for id " ++ toString sid)
        ∧ runOp st (Op.deleteStory sid eid) = (st, none))
    ∧ (∀ epic : Epic, mapGet st.epics eid = some epic → sid ∈ epic.story_ids →
        delete_story sid eid st = Except.ok
          { st with
            epics := mapInsert st.epics eid
              { epic with story_ids := epic.story_ids.erase sid },
            stories := mapRemove st.stories sid }) := by
  refine ⟨?_, ?_, ?_⟩
  · intro h
    have herr : delete_story sid eid st
        = Except.error ("no epic found for id " ++ toString eid) := by
      simp [delete_story, h]
    exact ⟨herr, by simp [runOp, herr]⟩
  · intro epic h hmem
    have herr : delete_story sid eid st
        = Except.error ("no story found for id " ++ toString sid) := by
      simp [delete_story, h, hmem]
    exact ⟨herr, by simp [runOp, herr]⟩
  · intro epic h hmem
    simp [delete_story, h, hmem]

/-- Witness for C4: story 1 exists, but under epic 0; deleting it through
epic 2 fails with NotFound. -/
theorem C4_witness :
    mapGet stC4.epics 2 = some epicC4
    ∧ (1 : Nat) ∉ epicC4.story_ids
    ∧ delete_story 1 2 stC4 = Except.error ("no story found for id " ++ toString 1)
    ∧ runOp stC4 (Op.deleteStory 1 2) = (stC4, none) := by
  have hmain := ((C4_delete_story_spec 1 2 stC4).2.1) epicC4 rfl (by decide)
  exact ⟨rfl, by decide, hmain.1, hmain.2⟩

/-- C5: deleting an existing epic removes exactly that epic's entry from the
epic mapping — every other epic entry, the whole story mapping, and
`last_item_id` are untouched, so the deleted epic's stories survive as
orphan records. -/
theorem C5_delete_epic_frame (id : Nat) (st : DatabaseState) (epic : Epic)
    (h : mapGet st.epics id = some epic) :
    delete_epic id st = Except.ok { st with epics := mapRemove st.epics id }
    ∧ mapGet (mapRemove st.epics id) id = none
    ∧ (∀ k : Nat, k ≠ id → mapGet (mapRemove st.epics id) k = mapGet st.epics k) :=
  ⟨by simp [delete_epic, h], mapGet_remove_self _ _, fun _ hk => mapGet_remove_ne _ hk⟩

/-- Witness for C5: deleting epic 3 of `stC5` leaves epic 4 and story 1 in
place. -/
theorem C5_witness :
    mapGet stC5.epics 3 = some (Epic.new "e3" "d")
    ∧ delete_epic 3 stC5 = Except.ok stC5'
    ∧ mapGet stC5'.epics 3 = none
    ∧ mapGet stC5'.epics 4 = mapGet stC5.epics 4 := by
  have hmain := C5_delete_epic_frame 3 stC5 (Epic.new "e3" "d") rfl
  exact ⟨rfl, hmain.1, hmain.2.1, hmain.2.2 4 (by decide)⟩

/-- C1: for every epic present in the store, the automatic rollup resolves
the epic's child stories (ids with no story entry are silently skipped),
derives the status by the first-match precedence captured in `rollupSpec`
(empty set Open; all Closed Closed; all Resolved-or-Closed Resolved; all
Open Open; otherwise InProgress) and writes exactly that status back
through the epic-status update. -/
theorem C1_rollup (st : DatabaseState) (eid : Nat) (epic : Epic)
    (h : mapGet st.epics eid = some epic) :
    auto_update_epic_status (Feature.epic eid) st = Except.ok
      { st with
        epics := mapInsert st.epics eid
                   { epic with
                     status := rollupSpec
                                 (epic.story_ids.filterMap
                                   (fun id => mapGet st.stories id)) } } := by
  have hupd : ∀ X : Status, update_epic_status eid X st
      = Except.ok { st with epics := mapInsert st.epics eid { epic with status := X } } := by
    intro X
    simp [update_epic_status, h]
  unfold auto_update_epic_status
  simp only [h, Option.map_some']
  by_cases hs : epic.story_ids.filterMap (fun id => mapGet st.stories id) = []
  · simp [hs, rollupSpec, hupd]
  · have hne : (epic.story_ids.filterMap (fun id => mapGet st.stories id)).isEmpty = false := by
      simpa [List.isEmpty_iff] using hs
    simp only [hne, Bool.false_eq_true, if_false, rollupSpec, if_neg hs, hupd]

/-- Witness for C1: epic 0 of `stC1` owns stories with statuses
`[Closed, Resolved]`, so the rollup writes Resolved. -/
theorem C1_witness :
    mapGet stC1.epics 0 = some epicC1
    ∧ auto_update_epic_status (Feature.epic 0) stC1 = Except.ok
        { stC1 with epics := [(0, { epicC1 with status := Status.resolved })] } := by
  have hmain := C1_rollup stC1 0 epicC1 rfl
  exact ⟨rfl, hmain⟩

/-- C10: when the prompt supplies a status, the story exists, but no epic's
story list contains it, dispatching UpdateStoryStatus first persists the new
story status and then fails in the rollup's owning-epic scan: the call
returns NotFound although the status write is already committed, so the
action is not atomic on this path. -/
theorem C10_update_story_status_nonatomic (p : NavPrompt) (nav : Navigator) (sid : Nat)
    (status : Status) (story : Story)
    (hp : p.update_status = some status)
    (hs : mapGet nav.db.stories sid = some story)
    (hn : find_epic_containing nav.db.epics sid = none) :
    dispatch_action p (NavAction.updateStoryStatus sid) nav
      = ({ nav with db := { nav.db with
            stories := mapInsert nav.db.stories sid { story with status := status } } },
         Except.error "epic not found") := by
  have hw : update_story_status sid status nav.db = Except.ok
      { nav.db with
        stories := mapInsert nav.db.stories sid { story with status := status } } := by
    simp [update_story_status, hs]
  have hauto : auto_update_epic_status (Feature.story sid)
      { nav.db with
        stories := mapInsert nav.db.stories sid { story with status := status } }
      = Except.error "epic not found" := by
    simp [auto_update_epic_status, hn]
  simp [dispatch_action, hp, hw, hauto]

/-- Witness for C10: in `stC10` the story 5 exists and no epic owns it; the
dispatch commits the Closed status and still reports the NotFound error. -/
theorem C10_witness :
    pFix.update_status = some Status.closed
    ∧ mapGet stC10.stories 5 = some (Story.new "s" "d")
    ∧ find_epic_containing stC10.epics 5 = none
    ∧ dispatch_action pFix (NavAction.updateStoryStatus 5) (Navigator.new stC10)
        = ({ pages := [Page.homePage],
             db := { stC10 with
               stories := [(5, { Story.new "s" "d" with status := Status.closed })] } },
           Except.error "epic not found") := by
  have hmain := C10_update_story_status_nonatomic pFix (Navigator.new stC10) 5
    Status.closed (Story.new "s" "d") rfl rfl rfl
  exact ⟨rfl, rfl, rfl, hmain⟩

theorem runOp_some_id {st st' : DatabaseState} {op : Op} {id : Nat}
    (h : runOp st op = (st', some id)) :
    id = next_id st ∧ st'.last_item_id = some id := by
  cases op with
  | createEpic epic =>
      simp only [runOp, create_epic, Prod.mk.injEq, Option.some.injEq] at h
      obtain ⟨h1, h2⟩ := h
      subst h2
      exact ⟨rfl, by rw [← h1]⟩
  | createStory story epic_id =>
      simp only [runOp] at h
      split at h
      · next i s' heq =>
          simp only [Prod.mk.injEq, Option.some.injEq] at h
          obtain ⟨h1, h2⟩ := h
          subst h1 h2
          simp only [create_story] at heq
          split at heq
          · exact absurd heq (by simp)
          · simp only [Except.ok.injEq, Prod.mk.injEq] at heq
            obtain ⟨hi, hs⟩ := heq
            subst hi
            exact ⟨rfl, by rw [← hs]⟩
      · simp at h
  | deleteEpic i =>
      simp only [runOp] at h
      split at h <;> simp at h
  | deleteStory sid eid =>
      simp only [runOp] at h
      split at h <;> simp at h

theorem runOp_none_last {st st' : DatabaseState} {op : Op}
    (h : runOp st op = (st', none)) : st'.last_item_id = st.last_item_id := by
  cases op with
  | createEpic epic => simp [runOp, create_epic] at h
  | createStory story epic_id =>
      simp only [runOp] at h
      split at h
      · simp at h
      · simp only [Prod.mk.injEq] at h
        rw [← h.1]
  | deleteEpic i =>
      simp only [runOp] at h
      split at h
      · next s' heq =>
          simp only [Prod.mk.injEq] at h
          rw [← h.1]
          simp only [delete_epic] at heq
          split at heq
          · simp only [Except.ok.injEq] at heq
            rw [← heq]
          · simp at heq
      · simp only [Prod.mk.injEq] at h
        rw [← h.1]
  | deleteStory sid eid =>
      simp only [runOp] at h
      split at h
      · next s' heq =>
          simp only [Prod.mk.injEq] at h
          rw [← h.1]
          simp only [delete_story] at heq
          split at heq
          · simp at heq
          · split at heq
            · simp only [Except.ok.injEq] at heq
              rw [← heq]
            · simp at heq
      · simp only [Prod.mk.injEq] at h
        rw [← h.1]

theorem runOps_ids_spec (ops : List Op) : ∀ st : DatabaseState,
    ((runOps st ops).snd).Pairwise (· < ·)
    ∧ (∀ i ∈ (runOps st ops).snd, ∀ n : Nat, st.last_item_id = some n → n < i) := by
  induction ops with
  | nil =>
      intro st
      exact ⟨List.Pairwise.nil, by intro i hi; simp [runOps] at hi⟩
  | cons op ops ih =>
      intro st
      rcases hop : runOp st op with ⟨st', idOpt⟩
      have hrec := ih st'
      have hids : (runOps st (op :: ops)).snd = idOpt.toList ++ (runOps st' ops).snd := by
        simp [runOps, hop]
      cases idOpt with
      | none =>
          have hlast := runOp_none_last hop
          rw [hids]
          simp only [Option.toList_none, List.nil_append]
          exact ⟨hrec.1, fun i hi n hn => hrec.2 i hi n (by rw [hlast, hn])⟩
      | some id =>
          obtain ⟨hid, hlast⟩ := runOp_some_id hop
          rw [hids]
          simp only [Option.toList_some, List.singleton_append]
          constructor
          · exact List.Pairwise.cons (fun i hi => hrec.2 i hi id hlast) hrec.1
          · intro i hi n hn
            rcases List.mem_cons.mp hi with hi | hi
            · subst hi hid
              simp only [next_id, hn]
              omega
            · have h1 : id < i := hrec.2 i hi id hlast
              have h2 : n < id := by
                subst hid
                simp only [next_id, hn]
                omega
              omega

/-- C2: over any interleaved sequence of create and delete operations, the
ids returned by the successful creates are strictly increasing and pairwise
distinct — an id is never reused, even after its owner is deleted — and each
create allocates exactly `last_item_id + 1` (or `0` when `last_item_id` is
`None`) from the sequence shared by epics and stories. -/
theorem C2_id_monotonicity (st : DatabaseState) (ops : List Op) :
    ((runOps st ops).snd).Pairwise (· < ·)
    ∧ ((runOps st ops).snd).Nodup
    ∧ (∀ epic : Epic, (create_epic epic st).fst = next_id st
        ∧ (create_epic epic st).snd.last_item_id = some (next_id st))
    ∧ (∀ (story : Story) (epic_id id : Nat) (st' : DatabaseState),
        create_story story epic_id st = Except.ok (id, st')
          → id = next_id st ∧ st'.last_item_id = some id) := by
  have hp := (runOps_ids_spec ops st).1
  refine ⟨hp, hp.imp (fun hlt => Nat.ne_of_lt hlt), fun epic => ⟨rfl, rfl⟩, ?_⟩
  intro story epic_id id st' h
  simp only [create_story] at h
  split at h
  · exact absurd h (by simp)
  · simp only [Except.ok.injEq, Prod.mk.injEq] at h
    obtain ⟨h1, h2⟩ := h
    subst h1
    exact ⟨rfl, by rw [← h2]⟩

/-- Witness for C2: creating a story under epic 0 of `stC2` (counter at 0)
returns id 1 and advances the counter to 1. -/
theorem C2_witness :
    create_story (Story.new "s" "d") 0 stC2 = Except.ok (1, stC2')
    ∧ ((1 : Nat) = next_id stC2 ∧ stC2'.last_item_id = some 1) := by
  have h : create_story (Story.new "s" "d") 0 stC2 = Except.ok (1, stC2') := rfl
  exact ⟨h, (C2_id_monotonicity stC2 []).2.2.2 (Story.new "s" "d") 0 1 stC2' h⟩

end Clira
